import Mathlib

/-!
Shallow embedding of the external-monitor proxy
(`pkg/externalmonitor`: `external_monitor_proxy.go`, `external_monitor.go`,
`types/config.go`).  Go durations are modelled as integer nanoseconds,
the float64 backoff multiplier as an exact rational, and the bounded
status channel as a list with an explicit capacity check.  Panics are
modelled as `Except.error`.
-/

namespace NpdExt

/-- Go `time.Second` in nanoseconds. -/
def second : Int := 1000000000

/-! ## Status model (`k8s.io/node-problem-detector/pkg/types`) -/

/-- Internal condition tri-state (`npdt.True` / `npdt.False` / `npdt.Unknown`). -/
inductive ConditionStatus
  | isTrue
  | isFalse
  | unknown
deriving DecidableEq, Repr

/-- Internal event severity (`npdt.Info` / `npdt.Warn`). -/
inductive Severity
  | info
  | warn
deriving DecidableEq, Repr

/-- Internal `npdt.Condition`; `transition` is the last-transition timestamp. -/
structure Condition where
  type : String
  status : ConditionStatus
  transition : Int
  reason : String
  message : String
deriving DecidableEq, Repr

/-- Internal `npdt.Event`. -/
structure Event where
  severity : Severity
  timestamp : Int
  reason : String
  message : String
deriving DecidableEq, Repr

/-- Internal `npdt.Status`: one snapshot from a poll. -/
structure Status where
  source : String
  events : List Event
  conditions : List Condition
deriving DecidableEq, Repr

/-! ## Wire (protobuf) model, `pb.Status` and friends -/

/-- Wire severity enumeration, with an unspecified value for unrecognized codes. -/
inductive PbSeverity
  | info
  | warn
  | unspecified
deriving DecidableEq, Repr

/-- Wire condition-status enumeration. -/
inductive PbConditionStatus
  | isTrue
  | isFalse
  | unknown
  | unspecified
deriving DecidableEq, Repr

/-- Wire `pb.Event`. -/
structure PbEvent where
  severity : PbSeverity
  timestamp : Int
  reason : String
  message : String
deriving DecidableEq, Repr

/-- Wire `pb.Condition`. -/
structure PbCondition where
  type : String
  status : PbConditionStatus
  transition : Int
  reason : String
  message : String
deriving DecidableEq, Repr

/-- Wire `pb.Status`. -/
structure PbStatus where
  source : String
  events : List PbEvent
  conditions : List PbCondition
deriving DecidableEq, Repr

/-- Model of `convertSeverity`: unrecognized wire values map to `Info`. -/
def convertSeverity : PbSeverity → Severity
  | .info => .info
  | .warn => .warn
  | _ => .info

/-- Model of `convertConditionStatus`: unrecognized wire values map to `Unknown`. -/
def convertConditionStatus : PbConditionStatus → ConditionStatus
  | .isTrue => .isTrue
  | .isFalse => .isFalse
  | .unknown => .unknown
  | _ => .unknown

/-- Model of `convertStatus` on a non-nil wire status (the nil case is handled at the
call site, where the Go code returns an error and skips the rest of the poll). -/
def convertStatus (pb : PbStatus) : Status :=
  { source := pb.source
    events := pb.events.map fun e =>
      { severity := convertSeverity e.severity
        timestamp := e.timestamp
        reason := e.reason
        message := e.message }
    conditions := pb.conditions.map fun c =>
      { type := c.type
        status := convertConditionStatus c.status
        transition := c.transition
        reason := c.reason
        message := c.message } }

/-- The per-element comparison of `conditionsEqual`: type, status, reason,
message — the transition timestamp is ignored. -/
def conditionEq (x y : Condition) : Bool :=
  decide (x.type = y.type ∧ x.status = y.status ∧ x.reason = y.reason ∧
    x.message = y.message)

/-- Model of `conditionsEqual`: equal lengths and element-wise `conditionEq`. -/
def conditionsEqual : List Condition → List Condition → Bool
  | [], [] => true
  | x :: xs, y :: ys => conditionEq x y && conditionsEqual xs ys
  | _, _ => false

/-! ## Configuration (`types/config.go`) -/

/-- Model of `types.ConditionDefinition`. -/
structure ConditionDefinition where
  type : String
  reason : String
  message : String
deriving DecidableEq, Repr

/-- Model of `types.RetryPolicy`; durations in nanoseconds, multiplier as exact rational. -/
structure RetryPolicy where
  maxAttempts : Int
  backoffMultiplier : Rat
  maxBackoff : Int
  initialBackoff : Int
deriving DecidableEq, Repr

/-- Model of `types.HealthCheckConfig`. -/
structure HealthCheckConfig where
  interval : Int
  timeout : Int
  errorThreshold : Int
deriving DecidableEq, Repr

/-- Model of `types.ExternalPluginConfig`. -/
structure ExternalPluginConfig where
  socketAddress : String
  invokeInterval : Int
  timeout : Int
  skipInitialStatus : Bool
  retryPolicy : RetryPolicy
  healthCheck : HealthCheckConfig
  pluginParameters : List (String × String)
deriving DecidableEq, Repr

/-- Model of `types.ExternalMonitorConfig`. -/
structure ExternalMonitorConfig where
  plugin : String
  pluginConfig : ExternalPluginConfig
  source : String
  metricsReporting : Bool
  conditions : List ConditionDefinition
deriving DecidableEq, Repr

/-- The per-condition checks of `Validate`'s loop over `config.Conditions`. -/
def validateConditions : List ConditionDefinition → Except String Unit
  | [] => .ok ()
  | cd :: rest =>
    if cd.type = "" then .error "condition type is required"
    else if cd.reason = "" then .error "condition reason is required"
    else if cd.message = "" then .error "condition message is required"
    else validateConditions rest

/-- Model of `(*ExternalMonitorConfig).Validate`, with the source's check order. -/
def Validate (c : ExternalMonitorConfig) : Except String Unit :=
  if c.plugin ≠ "external" then .error "plugin must be external"
  else if c.source = "" then .error "source is required"
  else if c.pluginConfig.socketAddress = "" then .error "socketAddress is required"
  else if c.pluginConfig.invokeInterval < second then
    .error "invoke_interval must be at least 1 second"
  else if c.pluginConfig.timeout < second then
    .error "timeout must be at least 1 second"
  else if c.pluginConfig.timeout ≥ c.pluginConfig.invokeInterval then
    .error "timeout must be less than invoke_interval"
  else if c.pluginConfig.retryPolicy.maxAttempts < 1 then
    .error "retryPolicy.maxAttempts must be at least 1"
  else if c.pluginConfig.retryPolicy.backoffMultiplier < 1 then
    .error "retryPolicy.backoffMultiplier must be at least 1.0"
  else if c.pluginConfig.healthCheck.errorThreshold < 1 then
    .error "healthCheck.errorThreshold must be at least 1"
  else validateConditions c.conditions

/-! ## Proxy state (`ExternalMonitorProxy`) -/

/-- gRPC channel connectivity states (`connectivity.State`). -/
inductive Connectivity
  | Idle
  | Connecting
  | Ready
  | TransientFailure
  | Shutdown
deriving DecidableEq, Repr

/-- gRPC status codes relevant to `handleError`'s classification. -/
inductive GrpcCode
  | OK
  | Unavailable
  | DeadlineExceeded
  | Unimplemented
  | OtherCode
deriving DecidableEq, Repr

/-- Mutable fields of `ExternalMonitorProxy`.  `conn` is the gRPC channel
handle together with its connectivity state (`none` when the pointer is nil);
`connected` is the boolean field of the same name; `statusChan` is the
buffered outbound channel's content; `stopping` is the tomb's stop signal;
`chanClosed` records that `statusChan` has been closed. -/
structure ProxyState where
  conn : Option Connectivity
  connected : Bool
  lastConnectAttempt : Int
  backoffAttempt : Int
  errorCount : Int
  sequenceNumber : Int
  lastStatus : Option Status
  statusChan : List Status
  chanClosed : Bool
  stopping : Bool
deriving DecidableEq, Repr

/-- Proxy fields as initialized by `NewExternalMonitorProxy`
(zero values; empty buffered channel; fresh tomb). -/
def initialProxyState : ProxyState :=
  { conn := none
    connected := false
    lastConnectAttempt := 0
    backoffAttempt := 0
    errorCount := 0
    sequenceNumber := 0
    lastStatus := none
    statusChan := []
    chanClosed := false
    stopping := false }

/-- Model of `NewExternalMonitorProxy`: validates, then constructs the proxy. -/
def NewExternalMonitorProxy (c : ExternalMonitorConfig) : Except String ProxyState :=
  match Validate c with
  | .error e => .error ("invalid configuration: " ++ e)
  | .ok _ => .ok initialProxyState

/-- Buffer size of `statusChan` (`make(chan *npdt.Status, 1000)`). -/
def statusChanCapacity : Nat := 1000

/-- Model of `isConnected`: conn pointer non-nil and channel state Ready or Idle.
Note it reads only the channel handle, never the `connected` field. -/
def isConnected (s : ProxyState) : Bool :=
  match s.conn with
  | none => false
  | some st => st = .Ready || st = .Idle

/-- Environment inputs of one reconnection attempt: the wall clock at entry,
whether the socket path exists, whether the dial succeeds, and the
implementation-dependent value an out-of-range float64-to-int64 conversion
would produce during this attempt (the minimum int64 on amd64). -/
structure Env where
  now : Int
  socketExists : Bool
  dialOk : Bool
  overflowDuration : Int
deriving DecidableEq, Repr

/-- Model of `connectUnsafe`: closes any prior connection, dials, and on success
installs the new channel (gRPC dialing is non-blocking, so a fresh channel
starts Idle) and resets `connected`, `backoffAttempt`, `errorCount`. -/
def connectUnsafe (s : ProxyState) (env : Env) : Except String ProxyState :=
  if env.dialOk then
    .ok { s with conn := some .Idle
                 connected := true
                 backoffAttempt := 0
                 errorCount := 0 }
  else .error "failed to connect to external monitor"

/-- Outcome classification of one `attemptReconnection` invocation; the
post-debounce outcomes carry the backoff delay slept before dialing. -/
inductive ReconnectResult
  | debounced
  | gaveUp
  | socketMissing (delay : Int)
  | dialFailed (delay : Int)
  | connectedOk (delay : Int)
deriving DecidableEq, Repr

/-- Minimum value of Go's int64 (`time.Duration` is an int64). -/
def int64Min : Int := -9223372036854775808

/-- Maximum value of Go's int64 (`time.Duration` is an int64). -/
def int64Max : Int := 9223372036854775807

/-- Truncation toward zero, the rounding Go applies when converting a
floating-point value to an integer type. -/
def ratTrunc (x : Rat) : Int := if 0 ≤ x then ⌊x⌋ else -⌊-x⌋

/-- The `time.Duration(...)` conversion of the float64 backoff product:
truncation when the value fits in int64; for an out-of-range value the Go
specification makes the result implementation-dependent, modelled by the
`overflow` argument (amd64 hardware yields `int64Min` for every
out-of-range input). -/
def durationOfFloat (x : Rat) (overflow : Int) : Int :=
  if (int64Min : Rat) ≤ x ∧ x ≤ (int64Max : Rat) then ratTrunc x else overflow

/-- The backoff-delay computation inside `attemptReconnection`:
`time.Duration(float64(initialBackoff) * Pow(multiplier, attempt))`, the
product taken in exact-rational arithmetic and converted by
`durationOfFloat`, then clamped to `maxBackoff`.  The clamp compares the
already-converted int64 value, so an out-of-range product is clamped only
when its implementation-dependent conversion exceeds `maxBackoff`. -/
def nextBackoff (rp : RetryPolicy) (attempt : Nat) (overflow : Int) : Int :=
  let backoff := durationOfFloat
    ((rp.initialBackoff : Rat) * rp.backoffMultiplier ^ attempt) overflow
  if backoff > rp.maxBackoff then rp.maxBackoff else backoff

/-- Model of `attemptReconnection`: debounce, give-up check against `maxAttempts`,
backoff computation and counter increment, socket existence check, dial. -/
def attemptReconnection (cfg : ExternalMonitorConfig) (s : ProxyState) (env : Env) :
    ProxyState × ReconnectResult :=
  if env.now - s.lastConnectAttempt < second then (s, .debounced)
  else
    let s1 := { s with lastConnectAttempt := env.now }
    if s1.backoffAttempt ≥ cfg.pluginConfig.retryPolicy.maxAttempts then (s1, .gaveUp)
    else
      let backoff := nextBackoff cfg.pluginConfig.retryPolicy s1.backoffAttempt.toNat
        env.overflowDuration
      let s2 := { s1 with backoffAttempt := s1.backoffAttempt + 1 }
      if ¬ env.socketExists then (s2, .socketMissing backoff)
      else
        match connectUnsafe s2 env with
        | .error _ => (s2, .dialFailed backoff)
        | .ok s3 => (s3, .connectedOk backoff)

/-- Model of `handleError`: unconditional error-count increment, classification by
gRPC code (transient codes mark `connected = false`), and the threshold
trip that forces a reconnection attempt.  The returned flag records whether
`attemptReconnection` was invoked. -/
def handleError (cfg : ExternalMonitorConfig) (s : ProxyState) (code : GrpcCode)
    (env : Env) : ProxyState × Bool :=
  let s1 := { s with errorCount := s.errorCount + 1 }
  let s2 := match code with
    | .Unavailable | .DeadlineExceeded => { s1 with connected := false }
    | _ => s1
  if s2.errorCount ≥ cfg.pluginConfig.healthCheck.errorThreshold then
    ((attemptReconnection cfg s2 env).1, true)
  else (s2, false)

/-- What one poll tick did, mirroring the control flow of `checkHealth`. -/
inductive PollEffect
  | skipped
  | callFailed (reconnectTriggered : Bool)
  | convertFailed
  | interrupted
  | emitted
  | dropped
  | suppressed
deriving DecidableEq, Repr

/-- Outcome of the remote `CheckHealth` call: a wire status (`none` models a
nil response, which `convertStatus` rejects) or a gRPC error code. -/
inductive PollOutcome
  | success (pb : Option PbStatus)
  | failure (code : GrpcCode)
deriving DecidableEq, Repr

/-- The `HealthCheckRequest` built for each remote call. -/
structure HealthCheckRequest where
  parameters : List (String × String)
  sequence : Int
deriving DecidableEq, Repr

/-- Model of `shouldSendStatus`: first status always sent; statuses carrying events
always sent; otherwise sent iff conditions changed. -/
def shouldSendStatus (s : ProxyState) (st : Status) : Bool :=
  match s.lastStatus with
  | none => true
  | some last =>
    if st.events.length > 0 then true
    else ¬ conditionsEqual last.conditions st.conditions

/-- Model of `checkHealth`: skip when not connected; increment the sequence counter;
build the request; on error delegate to `handleError`; on success convert,
apply the emission policy with a non-blocking send (drop when the channel
is full, early return when the tomb is stopping), then unconditionally
record the status as `lastStatus` and reset `errorCount`. -/
def checkHealth (cfg : ExternalMonitorConfig) (s : ProxyState)
    (outcome : PollOutcome) (env : Env) :
    ProxyState × Option HealthCheckRequest × PollEffect :=
  if ¬ isConnected s then (s, none, .skipped)
  else
    let s1 := { s with sequenceNumber := s.sequenceNumber + 1 }
    let req : HealthCheckRequest :=
      { parameters := cfg.pluginConfig.pluginParameters
        sequence := s1.sequenceNumber }
    match outcome with
    | .failure code =>
      ((handleError cfg s1 code env).1, some req,
        .callFailed (handleError cfg s1 code env).2)
    | .success none => (s1, some req, .convertFailed)
    | .success (some pb) =>
      let st := convertStatus pb
      if shouldSendStatus s1 st then
        if s1.stopping then (s1, some req, .interrupted)
        else if s1.statusChan.length < statusChanCapacity then
          ({ s1 with statusChan := s1.statusChan ++ [st]
                     lastStatus := some st
                     errorCount := 0 }, some req, .emitted)
        else
          ({ s1 with lastStatus := some st, errorCount := 0 }, some req, .dropped)
      else
        ({ s1 with lastStatus := some st, errorCount := 0 }, some req, .suppressed)

/-- One tick of `healthCheckLoop`: reconnect iff the liveness check fails.
The flag records whether `attemptReconnection` was invoked. -/
def healthTick (cfg : ExternalMonitorConfig) (s : ProxyState) (env : Env) :
    ProxyState × Bool :=
  if isConnected s then (s, false)
  else ((attemptReconnection cfg s env).1, true)

/-- Model of `sendInitialStatus`: nothing when no conditions are declared; otherwise
synthesize a status (conditions initialized healthy/false) and push it with
the same non-blocking send, then record it as `lastStatus`. -/
def sendInitialStatus (cfg : ExternalMonitorConfig) (now : Int) (s : ProxyState) :
    ProxyState :=
  if cfg.conditions.length = 0 then s
  else
    let st : Status :=
      { source := cfg.source
        events := []
        conditions := cfg.conditions.map fun cd =>
          { type := cd.type
            status := .isFalse
            transition := now
            reason := cd.reason
            message := cd.message } }
    if s.stopping then s
    else if s.statusChan.length < statusChanCapacity then
      { s with statusChan := s.statusChan ++ [st], lastStatus := some st }
    else
      { s with lastStatus := some st }

/-- The part of `monitorLoop` that runs before the first tick:
the initial synthetic status unless `SkipInitialStatus` is set. -/
def monitorLoopInit (cfg : ExternalMonitorConfig) (now : Int) (s : ProxyState) :
    ProxyState :=
  if cfg.pluginConfig.skipInitialStatus then s else sendInitialStatus cfg now s

/-- Model of `Stop`: best-effort remote stop notification (no local state effect),
tomb stop signal, connection close (guarded and nil-ed), then
`close(statusChan)` — which, unguarded, panics if the channel is already
closed.  Panic is modelled as `Except.error`. -/
def Stop (s : ProxyState) : Except String ProxyState :=
  let s1 := { s with stopping := true }
  let s2 := match s1.conn with
    | some _ => { s1 with conn := none }
    | none => s1
  if s2.chanClosed then .error "panic: close of closed channel"
  else .ok { s2 with chanClosed := true }

/-- A step of the running proxy: a status-loop tick or a health-loop tick. -/
inductive Step
  | poll (outcome : PollOutcome) (env : Env)
  | health (env : Env)
deriving DecidableEq, Repr

/-- State transition of one step. -/
def runStep (cfg : ExternalMonitorConfig) (s : ProxyState) : Step → ProxyState
  | .poll outcome env => (checkHealth cfg s outcome env).1
  | .health env => (healthTick cfg s env).1

/-- State after a sequence of steps. -/
def runSteps (cfg : ExternalMonitorConfig) : ProxyState → List Step → ProxyState
  | s, [] => s
  | s, st :: rest => runSteps cfg (runStep cfg s st) rest

/-- The `CheckHealth` requests issued over a sequence of poll ticks
(ticks skipped while disconnected issue no request). -/
def runPolls (cfg : ExternalMonitorConfig) :
    ProxyState → List (PollOutcome × Env) → ProxyState × List HealthCheckRequest
  | s, [] => (s, [])
  | s, (outcome, env) :: rest =>
    let r := checkHealth cfg s outcome env
    let tail := runPolls cfg r.1 rest
    match r.2.1 with
    | none => tail
    | some req => (tail.1, req :: tail.2)

/-! ## Spec-side predicates and concrete fixtures -/

/-- The spec's ordered element-wise condition comparison: equal lengths and,
position by position, equal (type, status, reason, message) — timestamps
ignored.  Stated from the spec's words, to be compared with the source's
`conditionsEqual`. -/
def conditionsEqSpec (a b : List Condition) : Prop :=
  a.length = b.length ∧
    ∀ i (ha : i < a.length) (hb : i < b.length),
      (a.get ⟨i, ha⟩).type = (b.get ⟨i, hb⟩).type ∧
      (a.get ⟨i, ha⟩).status = (b.get ⟨i, hb⟩).status ∧
      (a.get ⟨i, ha⟩).reason = (b.get ⟨i, hb⟩).reason ∧
      (a.get ⟨i, ha⟩).message = (b.get ⟨i, hb⟩).message

/-- A configuration violating one of the §3 invariants listed in the claim:
poll interval below one second; call timeout below one second or not below
the poll interval; backoff multiplier below 1.0; max attempts below 1;
error threshold below 1; a declared condition with empty type, reason, or
message. -/
def ViolatesInvariant (c : ExternalMonitorConfig) : Prop :=
  c.pluginConfig.invokeInterval < second ∨
  c.pluginConfig.timeout < second ∨
  c.pluginConfig.timeout ≥ c.pluginConfig.invokeInterval ∨
  c.pluginConfig.retryPolicy.backoffMultiplier < 1 ∨
  c.pluginConfig.retryPolicy.maxAttempts < 1 ∨
  c.pluginConfig.healthCheck.errorThreshold < 1 ∨
  ∃ cd ∈ c.conditions, cd.type = "" ∨ cd.reason = "" ∨ cd.message = ""

/-- Retry policy with the documented defaults (5 attempts, multiplier 2.0,
max backoff 5 min, initial backoff 1 s). -/
def testRetryPolicy : RetryPolicy :=
  { maxAttempts := 5
    backoffMultiplier := 2
    maxBackoff := 300 * second
    initialBackoff := second }

/-- A retry policy that passes validation and reaches an attempt whose
backoff product overflows int64 (multiplier 2, initial backoff 1 s,
100 attempts allowed). -/
def overflowRetryPolicy : RetryPolicy :=
  { maxAttempts := 100
    backoffMultiplier := 2
    maxBackoff := 300 * second
    initialBackoff := second }

/-- Health-check config with the documented defaults. -/
def testHealthCheck : HealthCheckConfig :=
  { interval := 30 * second, timeout := 5 * second, errorThreshold := 3 }

/-- A valid configuration with the documented defaults and no declared
conditions. -/
def testConfig : ExternalMonitorConfig :=
  { plugin := "external"
    pluginConfig :=
      { socketAddress := "/var/run/gpu-monitor.sock"
        invokeInterval := 30 * second
        timeout := 10 * second
        skipInitialStatus := false
        retryPolicy := testRetryPolicy
        healthCheck := testHealthCheck
        pluginParameters := [] }
    source := "gpu-monitor"
    metricsReporting := true
    conditions := [] }

/-- A valid configuration whose retry policy is `overflowRetryPolicy`. -/
def overflowConfig : ExternalMonitorConfig :=
  { testConfig with
    pluginConfig := { testConfig.pluginConfig with retryPolicy := overflowRetryPolicy } }

/-- Model of `testConfig` with an invalid poll interval. -/
def badIntervalConfig : ExternalMonitorConfig :=
  { testConfig with
    pluginConfig := { testConfig.pluginConfig with invokeInterval := 0 } }

/-- A proxy state whose transport channel is up (Ready). -/
def connState : ProxyState :=
  { initialProxyState with conn := some .Ready, connected := true }

/-- A benign environment: plenty of elapsed time, socket present, dial ok,
amd64 behavior for an out-of-range conversion. -/
def env0 : Env :=
  { now := 10 * second, socketExists := true, dialOk := true
    overflowDuration := int64Min }

/-- A sample internal condition. -/
def condA : Condition :=
  { type := "GPUHealthy"
    status := .isFalse
    transition := 0
    reason := "GPUIsHealthy"
    message := "GPU is healthy" }

/-- A sample internal status holding `condA` and no events. -/
def statusA : Status := { source := "gpu-monitor", events := [], conditions := [condA] }

/-- A wire condition agreeing with `condA` on (type, status, reason, message)
but with a different transition timestamp. -/
def pbCondB : PbCondition :=
  { type := "GPUHealthy"
    status := .isFalse
    transition := 7
    reason := "GPUIsHealthy"
    message := "GPU is healthy" }

/-- A wire status whose conversion agrees with `statusA` on the compared
fields and carries no events. -/
def pbStatusB : PbStatus := { source := "gpu-monitor", events := [], conditions := [pbCondB] }

/-- A wire condition differing from `condA` in its status. -/
def pbCondC : PbCondition :=
  { type := "GPUHealthy"
    status := .isTrue
    transition := 9
    reason := "GPUOverheating"
    message := "GPU temperature above threshold" }

/-- A wire status differing from `statusA` in its conditions. -/
def pbStatusC : PbStatus := { source := "gpu-monitor", events := [], conditions := [pbCondC] }

/-! ## Helper lemmas -/

theorem connectUnsafe_ok_eq (s : ProxyState) (env : Env) (s' : ProxyState)
    (h : connectUnsafe s env = .ok s') :
    s' = { s with conn := some .Idle, connected := true,
                  backoffAttempt := 0, errorCount := 0 } := by
  unfold connectUnsafe at h
  split_ifs at h
  injection h with h
  exact h.symm

theorem attemptReconnection_preserves (cfg : ExternalMonitorConfig) (s : ProxyState)
    (env : Env) :
    (attemptReconnection cfg s env).1.sequenceNumber = s.sequenceNumber ∧
    (attemptReconnection cfg s env).1.statusChan = s.statusChan ∧
    (attemptReconnection cfg s env).1.lastStatus = s.lastStatus ∧
    (attemptReconnection cfg s env).1.stopping = s.stopping ∧
    (attemptReconnection cfg s env).1.chanClosed = s.chanClosed := by
  refine ⟨?_, ?_, ?_, ?_, ?_⟩
  all_goals simp only [attemptReconnection]
  all_goals repeat' split
  all_goals
    first
      | rfl
      | (rename_i s3 hs3
         rw [connectUnsafe_ok_eq _ _ _ hs3])

theorem handleError_preserves (cfg : ExternalMonitorConfig) (s : ProxyState)
    (code : GrpcCode) (env : Env) :
    (handleError cfg s code env).1.sequenceNumber = s.sequenceNumber ∧
    (handleError cfg s code env).1.statusChan = s.statusChan ∧
    (handleError cfg s code env).1.lastStatus = s.lastStatus ∧
    (handleError cfg s code env).1.stopping = s.stopping ∧
    (handleError cfg s code env).1.chanClosed = s.chanClosed := by
  cases code
  all_goals simp only [handleError]
  all_goals split
  all_goals
    first
      | exact ⟨rfl, rfl, rfl, rfl, rfl⟩
      | exact attemptReconnection_preserves cfg _ env

theorem shouldSendStatus_seq (s : ProxyState) (n : Int) (st : Status) :
    shouldSendStatus { s with sequenceNumber := n } st = shouldSendStatus s st := rfl

theorem checkHealth_not_connected (cfg : ExternalMonitorConfig) (s : ProxyState)
    (o : PollOutcome) (env : Env) (h : isConnected s = false) :
    checkHealth cfg s o env = (s, none, .skipped) := by
  simp [checkHealth, h]

theorem checkHealth_success_emitted (cfg : ExternalMonitorConfig) (s : ProxyState)
    (pb : PbStatus) (env : Env) (hc : isConnected s = true) (hstop : s.stopping = false)
    (hsend : shouldSendStatus s (convertStatus pb) = true)
    (hroom : s.statusChan.length < statusChanCapacity) :
    checkHealth cfg s (.success (some pb)) env =
      ({ s with sequenceNumber := s.sequenceNumber + 1
                statusChan := s.statusChan ++ [convertStatus pb]
                lastStatus := some (convertStatus pb)
                errorCount := 0 },
       some { parameters := cfg.pluginConfig.pluginParameters
              sequence := s.sequenceNumber + 1 },
       .emitted) := by
  simp only [checkHealth]
  rw [if_neg (by simp [hc])]
  repeat' split
  all_goals
    first
      | rfl
      | (rename_i h
         exact absurd hsend h)
      | (rename_i h
         exact absurd h (show ¬ s.stopping = true by simp [hstop]))
      | (rename_i h
         exact absurd hroom h)

theorem checkHealth_success_dropped (cfg : ExternalMonitorConfig) (s : ProxyState)
    (pb : PbStatus) (env : Env) (hc : isConnected s = true) (hstop : s.stopping = false)
    (hsend : shouldSendStatus s (convertStatus pb) = true)
    (hfull : ¬ s.statusChan.length < statusChanCapacity) :
    checkHealth cfg s (.success (some pb)) env =
      ({ s with sequenceNumber := s.sequenceNumber + 1
                lastStatus := some (convertStatus pb)
                errorCount := 0 },
       some { parameters := cfg.pluginConfig.pluginParameters
              sequence := s.sequenceNumber + 1 },
       .dropped) := by
  simp only [checkHealth]
  rw [if_neg (by simp [hc])]
  repeat' split
  all_goals
    first
      | rfl
      | (rename_i h
         exact absurd hsend h)
      | (rename_i h
         exact absurd h (show ¬ s.stopping = true by simp [hstop]))
      | (rename_i h
         exact absurd h hfull)

theorem checkHealth_success_suppressed (cfg : ExternalMonitorConfig) (s : ProxyState)
    (pb : PbStatus) (env : Env) (hc : isConnected s = true)
    (hsend : shouldSendStatus s (convertStatus pb) = false) :
    checkHealth cfg s (.success (some pb)) env =
      ({ s with sequenceNumber := s.sequenceNumber + 1
                lastStatus := some (convertStatus pb)
                errorCount := 0 },
       some { parameters := cfg.pluginConfig.pluginParameters
              sequence := s.sequenceNumber + 1 },
       .suppressed) := by
  simp only [checkHealth]
  rw [if_neg (by simp [hc])]
  repeat' split
  all_goals
    first
      | rfl
      | (exact absurd
          (show shouldSendStatus { s with sequenceNumber := s.sequenceNumber + 1 }
              (convertStatus pb) = true by assumption)
          (show ¬ shouldSendStatus s (convertStatus pb) = true by simp [hsend]))

theorem checkHealth_request (cfg : ExternalMonitorConfig) (s : ProxyState)
    (o : PollOutcome) (env : Env) (hc : isConnected s = true) :
    (checkHealth cfg s o env).2.1 =
      some { parameters := cfg.pluginConfig.pluginParameters
             sequence := s.sequenceNumber + 1 } ∧
    (checkHealth cfg s o env).1.sequenceNumber = s.sequenceNumber + 1 := by
  unfold checkHealth
  rw [if_neg (by simp [hc])]
  cases o with
  | failure code =>
    exact ⟨rfl, (handleError_preserves cfg _ code env).1⟩

  | success pb =>
    cases pb with
    | none => exact ⟨rfl, rfl⟩
    | some p =>
      simp only []
      split
      · split
        · exact ⟨rfl, rfl⟩
        · split
          · exact ⟨rfl, rfl⟩
          · exact ⟨rfl, rfl⟩
      · exact ⟨rfl, rfl⟩

theorem checkHealth_stopping_chan (cfg : ExternalMonitorConfig) (s : ProxyState)
    (o : PollOutcome) (env : Env) (h : s.stopping = true) :
    (checkHealth cfg s o env).1.statusChan = s.statusChan := by
  simp only [checkHealth]
  repeat' split
  all_goals
    first
      | rfl
      | exact (handleError_preserves cfg _ _ env).2.1
      | (rename_i hno
         exact absurd h hno)

theorem conditionsEqual_iff_spec :
    ∀ a b : List Condition, conditionsEqual a b = true ↔ conditionsEqSpec a b := by
  intro a
  induction a with
  | nil =>
    intro b
    cases b with
    | nil => simp [conditionsEqual, conditionsEqSpec]
    | cons y ys => simp [conditionsEqual, conditionsEqSpec]
  | cons x xs ih =>
    intro b
    cases b with
    | nil => simp [conditionsEqual, conditionsEqSpec]
    | cons y ys =>
      simp only [conditionsEqual, Bool.and_eq_true, conditionEq, decide_eq_true_eq, ih,
        conditionsEqSpec, List.length_cons]
      constructor
      · rintro ⟨⟨ht, hs, hr, hm⟩, hlen, hall⟩
        refine ⟨by omega, ?_⟩
        intro i ha hb
        cases i with
        | zero => exact ⟨ht, hs, hr, hm⟩
        | succ j => exact hall j (by omega) (by omega)
      · rintro ⟨hlen, hall⟩
        refine ⟨hall 0 (by omega) (by omega), by omega, ?_⟩
        intro j ha hb
        exact hall (j + 1) (by omega) (by omega)

theorem validateConditions_ok :
    ∀ l : List ConditionDefinition, validateConditions l = .ok () →
      ∀ cd ∈ l, cd.type ≠ "" ∧ cd.reason ≠ "" ∧ cd.message ≠ "" := by
  intro l
  induction l with
  | nil => intro _ cd hcd; cases hcd
  | cons c rest ih =>
    intro h cd hcd
    unfold validateConditions at h
    split_ifs at h with h1 h2 h3
    rcases List.mem_cons.mp hcd with rfl | hcd
    · exact ⟨h1, h2, h3⟩
    · exact ih h cd hcd

theorem Validate_ok_inv (c : ExternalMonitorConfig) (h : Validate c = .ok ()) :
    second ≤ c.pluginConfig.invokeInterval ∧
    second ≤ c.pluginConfig.timeout ∧
    c.pluginConfig.timeout < c.pluginConfig.invokeInterval ∧
    1 ≤ c.pluginConfig.retryPolicy.maxAttempts ∧
    1 ≤ c.pluginConfig.retryPolicy.backoffMultiplier ∧
    1 ≤ c.pluginConfig.healthCheck.errorThreshold ∧
    ∀ cd ∈ c.conditions, cd.type ≠ "" ∧ cd.reason ≠ "" ∧ cd.message ≠ "" := by
  unfold Validate at h
  split_ifs at h with h1 h2 h3 h4 h5 h6 h7 h8 h9
  refine ⟨by omega, by omega, by omega, by omega, by exact not_lt.mp h8, by omega,
    validateConditions_ok _ h⟩

/-! ## Claim theorems -/

/-- C4 counterexample: `overflowConfig` passes validation, yet at attempt 34
its backoff product exceeds int64, and with the amd64 conversion result
(`int64Min`) the clamp is bypassed: the computed delay is a negative value,
not maxBackoff — so the delay is not clamped to maxBackoff when the
exponential term overflows. -/
theorem backoff_overflow_counterexample :
    Validate overflowConfig = .ok () ∧
    (int64Max : Rat) <
      (overflowRetryPolicy.initialBackoff : Rat) *
        overflowRetryPolicy.backoffMultiplier ^ 34 ∧
    nextBackoff overflowRetryPolicy 34 int64Min = int64Min ∧
    nextBackoff overflowRetryPolicy 34 int64Min ≠ overflowRetryPolicy.maxBackoff ∧
    nextBackoff overflowRetryPolicy 34 int64Min < 0 := by
  have hcond : ¬ ((int64Min : Rat) ≤ (overflowRetryPolicy.initialBackoff : Rat) *
      overflowRetryPolicy.backoffMultiplier ^ 34 ∧
      (overflowRetryPolicy.initialBackoff : Rat) *
        overflowRetryPolicy.backoffMultiplier ^ 34 ≤ (int64Max : Rat)) := by
    rintro ⟨-, hB⟩
    norm_num [overflowRetryPolicy, second, int64Max] at hB
  have hres : nextBackoff overflowRetryPolicy 34 int64Min = int64Min := by
    simp only [nextBackoff, durationOfFloat]
    rw [if_neg hcond,
      if_neg (by norm_num [int64Min, overflowRetryPolicy, second])]
  refine ⟨rfl, by norm_num [overflowRetryPolicy, second, int64Max], hres, ?_, ?_⟩
  · rw [hres]
    norm_num [int64Min, overflowRetryPolicy, second]
  · rw [hres]
    norm_num [int64Min]

/-- C4 (amended): for every attempt index i, multiplier m at least 1, and
nonnegative initial backoff b, as long as the product b * m ^ i is
representable in int64 the computed delay equals min(trunc(b * m ^ i),
maxBackoff); the delay at attempt 0 equals b when b is at most maxBackoff;
delays are non-decreasing across attempts whose products stay representable;
and for every attempt — overflowing or not — the clamp keeps the delay from
exceeding maxBackoff, though an overflowing product's
implementation-dependent conversion may fall below maxBackoff instead of
being clamped to it. -/
theorem backoff_law (rp : RetryPolicy) (i : Nat) (ov : Int)
    (hm : 1 ≤ rp.backoffMultiplier) (hb : 0 ≤ rp.initialBackoff)
    (hrep : (rp.initialBackoff : Rat) * rp.backoffMultiplier ^ i ≤ (int64Max : Rat)) :
    nextBackoff rp i ov =
      min (ratTrunc ((rp.initialBackoff : Rat) * rp.backoffMultiplier ^ i))
        rp.maxBackoff ∧
    (rp.initialBackoff ≤ rp.maxBackoff → nextBackoff rp 0 ov = rp.initialBackoff) ∧
    (∀ j, i ≤ j →
      (rp.initialBackoff : Rat) * rp.backoffMultiplier ^ j ≤ (int64Max : Rat) →
      nextBackoff rp i ov ≤ nextBackoff rp j ov) ∧
    (∀ (k : Nat) (ov' : Int), nextBackoff rp k ov' ≤ rp.maxBackoff) := by
  have hbR : (0 : Rat) ≤ (rp.initialBackoff : Rat) := by exact_mod_cast hb
  have hm0 : (0 : Rat) ≤ rp.backoffMultiplier := le_trans zero_le_one hm
  have hpos : ∀ k : Nat, 0 ≤ (rp.initialBackoff : Rat) * rp.backoffMultiplier ^ k :=
    fun k => mul_nonneg hbR (pow_nonneg hm0 k)
  have hter : ∀ j k : Nat, j ≤ k →
      (rp.initialBackoff : Rat) * rp.backoffMultiplier ^ j ≤
        (rp.initialBackoff : Rat) * rp.backoffMultiplier ^ k :=
    fun j k hjk => mul_le_mul_of_nonneg_left (pow_le_pow_right₀ hm hjk) hbR
  have htr : ∀ x : Rat, 0 ≤ x → ratTrunc x = ⌊x⌋ := by
    intro x hx
    unfold ratTrunc
    rw [if_pos hx]
  have heval : ∀ (k : Nat) (ov' : Int),
      (rp.initialBackoff : Rat) * rp.backoffMultiplier ^ k ≤ (int64Max : Rat) →
      nextBackoff rp k ov' =
        min (ratTrunc ((rp.initialBackoff : Rat) * rp.backoffMultiplier ^ k))
          rp.maxBackoff := by
    intro k ov' hk
    have hin : (int64Min : Rat) ≤
        (rp.initialBackoff : Rat) * rp.backoffMultiplier ^ k ∧
        (rp.initialBackoff : Rat) * rp.backoffMultiplier ^ k ≤ (int64Max : Rat) :=
      ⟨le_trans (by norm_num [int64Min]) (hpos k), hk⟩
    simp only [nextBackoff, durationOfFloat]
    rw [if_pos hin]
    rcases le_or_lt (ratTrunc ((rp.initialBackoff : Rat) * rp.backoffMultiplier ^ k))
        rp.maxBackoff with hle | hlt
    · rw [if_neg (not_lt.mpr hle), min_eq_left hle]
    · rw [if_pos hlt, min_eq_right hlt.le]
  refine ⟨heval i ov hrep, ?_, ?_, ?_⟩
  · intro hble
    have hrep0 : (rp.initialBackoff : Rat) * rp.backoffMultiplier ^ 0 ≤ (int64Max : Rat) :=
      le_trans (hter 0 i (Nat.zero_le i)) hrep
    rw [heval 0 ov hrep0]
    have hzero : (rp.initialBackoff : Rat) * rp.backoffMultiplier ^ 0 =
        ((rp.initialBackoff : Int) : Rat) := by
      rw [pow_zero, mul_one]
    rw [hzero, htr _ (by positivity), Int.floor_intCast]
    exact min_eq_left hble
  · intro j hij hrepj
    rw [heval i ov (le_trans (hter i j hij) hrepj), heval j ov hrepj]
    refine min_le_min ?_ le_rfl
    rw [htr _ (hpos i), htr _ (hpos j)]
    exact Int.floor_le_floor (hter i j hij)
  · intro k ov'
    simp only [nextBackoff]
    split
    · exact le_rfl
    · next hno => exact not_lt.mp hno

/-- Witness for C4's amended theorem at the default retry policy, attempt 3. -/
theorem backoff_law_witness :
    (1 : Rat) ≤ testRetryPolicy.backoffMultiplier ∧
    (0 : Int) ≤ testRetryPolicy.initialBackoff ∧
    (testRetryPolicy.initialBackoff : Rat) * testRetryPolicy.backoffMultiplier ^ 3 ≤
      (int64Max : Rat) ∧
    (nextBackoff testRetryPolicy 3 int64Min =
      min (ratTrunc ((testRetryPolicy.initialBackoff : Rat) *
          testRetryPolicy.backoffMultiplier ^ 3))
        testRetryPolicy.maxBackoff ∧
     (testRetryPolicy.initialBackoff ≤ testRetryPolicy.maxBackoff →
      nextBackoff testRetryPolicy 0 int64Min = testRetryPolicy.initialBackoff) ∧
     (∀ j, 3 ≤ j →
      (testRetryPolicy.initialBackoff : Rat) * testRetryPolicy.backoffMultiplier ^ j ≤
        (int64Max : Rat) →
      nextBackoff testRetryPolicy 3 int64Min ≤ nextBackoff testRetryPolicy j int64Min) ∧
     (∀ (k : Nat) (ov' : Int),
      nextBackoff testRetryPolicy k ov' ≤ testRetryPolicy.maxBackoff)) :=
  ⟨by norm_num [testRetryPolicy], by norm_num [testRetryPolicy, second],
   by norm_num [testRetryPolicy, second, int64Max],
   backoff_law testRetryPolicy 3 int64Min (by norm_num [testRetryPolicy])
     (by norm_num [testRetryPolicy, second])
     (by norm_num [testRetryPolicy, second, int64Max])⟩

/-- C5: every configuration violating one of the listed invariants is
rejected by Validate, and NewExternalMonitorProxy returns an error and
constructs no proxy. -/
theorem validate_rejects_invalid (c : ExternalMonitorConfig) (hv : ViolatesInvariant c) :
    (∃ e, Validate c = .error e) ∧ (∃ e, NewExternalMonitorProxy c = .error e) := by
  simp only [ViolatesInvariant] at hv
  cases hE : Validate c with
  | ok u =>
    exfalso
    cases u
    obtain ⟨h1, h2, h3, h4, h5, h6, h7⟩ := Validate_ok_inv c hE
    rcases hv with h | h | h | h | h | h | ⟨cd, hcd, hbad⟩
    · exact absurd h1 (not_le.mpr h)
    · exact absurd h2 (not_le.mpr h)
    · exact absurd h (not_le.mpr h3)
    · exact absurd h5 (not_le.mpr h)
    · exact absurd h4 (not_le.mpr h)
    · exact absurd h6 (not_le.mpr h)
    · obtain ⟨ht, hr, hmsg⟩ := h7 cd hcd
      rcases hbad with hb | hb | hb
      · exact ht hb
      · exact hr hb
      · exact hmsg hb
  | error e =>
    refine ⟨⟨e, rfl⟩, ⟨"invalid configuration: " ++ e, ?_⟩⟩
    unfold NewExternalMonitorProxy
    rw [hE]

/-- Witness for C5 at a configuration whose poll interval is below one second. -/
theorem validate_rejects_invalid_witness :
    ViolatesInvariant badIntervalConfig ∧
    (∃ e, Validate badIntervalConfig = .error e) ∧
    (∃ e, NewExternalMonitorProxy badIntervalConfig = .error e) :=
  ⟨Or.inl (by decide),
   validate_rejects_invalid badIntervalConfig (Or.inl (by decide))⟩

/-- C1 counterexample: an Unsupported (Unimplemented) error does change
consecutiveErrors (0 becomes 1), and a third consecutive Unsupported error at
the default threshold 3 does trigger a forced reconnection attempt. -/
theorem unsupported_counts_counterexample :
    connState.errorCount = 0 ∧
    (handleError testConfig connState .Unimplemented env0).1.errorCount = 1 ∧
    (handleError testConfig { connState with errorCount := 2 }
      .Unimplemented env0).2 = true := by
  decide

/-- C1 (amended): handling an Unsupported (Unimplemented) error increments
consecutiveErrors exactly like any other error; the forced reconnection
attempt fires precisely when the incremented count reaches the error
threshold, so a run of Unsupported outcomes alone can trigger it. -/
theorem handleError_unsupported_counts (cfg : ExternalMonitorConfig)
    (s : ProxyState) (env : Env) :
    ((handleError cfg s .Unimplemented env).2 = true ↔
      cfg.pluginConfig.healthCheck.errorThreshold ≤ s.errorCount + 1) ∧
    (s.errorCount + 1 < cfg.pluginConfig.healthCheck.errorThreshold →
      (handleError cfg s .Unimplemented env).1 =
        { s with errorCount := s.errorCount + 1 }) := by
  constructor
  · simp only [handleError]
    split
    next hge => simpa using hge
    next hlt => simpa using hlt
  · intro h
    simp only [handleError]
    split
    next hge =>
      exact absurd
        (show cfg.pluginConfig.healthCheck.errorThreshold ≤ s.errorCount + 1 from hge)
        (not_le.mpr h)
    next hlt => rfl

/-- Witness for C1's amended theorem, below the threshold. -/
theorem handleError_unsupported_counts_witness :
    connState.errorCount + 1 < testConfig.pluginConfig.healthCheck.errorThreshold ∧
    (((handleError testConfig connState .Unimplemented env0).2 = true ↔
      testConfig.pluginConfig.healthCheck.errorThreshold ≤ connState.errorCount + 1) ∧
     (connState.errorCount + 1 < testConfig.pluginConfig.healthCheck.errorThreshold →
      (handleError testConfig connState .Unimplemented env0).1 =
        { connState with errorCount := connState.errorCount + 1 })) :=
  ⟨by decide, handleError_unsupported_counts testConfig connState env0⟩

/-- C7 counterexample: a successful poll whose status is suppressed by the
emission policy (conditions equal on the compared fields, no events) still
resets consecutiveErrors from 2 to 0 and still replaces the last-sent
reference — no emission happened (the channel stays empty). -/
theorem lastStatus_update_counterexample :
    (checkHealth testConfig
      { connState with errorCount := 2, lastStatus := some statusA }
      (.success (some pbStatusB)) env0).2.2 = .suppressed ∧
    (checkHealth testConfig
      { connState with errorCount := 2, lastStatus := some statusA }
      (.success (some pbStatusB)) env0).1.statusChan = [] ∧
    (checkHealth testConfig
      { connState with errorCount := 2, lastStatus := some statusA }
      (.success (some pbStatusB)) env0).1.errorCount = 0 ∧
    (checkHealth testConfig
      { connState with errorCount := 2, lastStatus := some statusA }
      (.success (some pbStatusB)) env0).1.lastStatus =
        some (convertStatus pbStatusB) := by
  decide

/-- C7 (amended): on every successful, convertible poll made while connected
and not stopping, consecutiveErrors is reset to 0 and the polled status
becomes the new last-sent reference unconditionally — whether the status was
emitted, suppressed by the policy, or dropped because the stream was full. -/
theorem checkHealth_success_resets (cfg : ExternalMonitorConfig) (s : ProxyState)
    (pb : PbStatus) (env : Env) (hc : isConnected s = true)
    (hstop : s.stopping = false) :
    (checkHealth cfg s (.success (some pb)) env).1.errorCount = 0 ∧
    (checkHealth cfg s (.success (some pb)) env).1.lastStatus =
      some (convertStatus pb) := by
  by_cases hsend : shouldSendStatus s (convertStatus pb) = true
  · by_cases hroom : s.statusChan.length < statusChanCapacity
    · rw [checkHealth_success_emitted cfg s pb env hc hstop hsend hroom]
      exact ⟨rfl, rfl⟩
    · rw [checkHealth_success_dropped cfg s pb env hc hstop hsend hroom]
      exact ⟨rfl, rfl⟩
  · rw [checkHealth_success_suppressed cfg s pb env hc
      (Bool.not_eq_true _ ▸ hsend : shouldSendStatus s (convertStatus pb) = false)]
    exact ⟨rfl, rfl⟩

/-- Witness for C7's amended theorem on a concrete suppressed poll. -/
theorem checkHealth_success_resets_witness :
    isConnected { connState with errorCount := 2, lastStatus := some statusA } = true ∧
    ProxyState.stopping { connState with errorCount := 2, lastStatus := some statusA } = false ∧
    ((checkHealth testConfig { connState with errorCount := 2, lastStatus := some statusA }
        (.success (some pbStatusB)) env0).1.errorCount = 0 ∧
     (checkHealth testConfig { connState with errorCount := 2, lastStatus := some statusA }
        (.success (some pbStatusB)) env0).1.lastStatus = some (convertStatus pbStatusB)) :=
  ⟨by decide, by decide,
   checkHealth_success_resets testConfig
     { connState with errorCount := 2, lastStatus := some statusA }
     pbStatusB env0 (by decide) (by decide)⟩

/-- C8 counterexample: after a Transient (Unavailable) error the connected
flag is false, yet the liveness check still reports connected (it never reads
that flag, only the channel handle, which is still Ready), so the health
loop's next tick does not invoke the reconnection attempt. -/
theorem transient_disconnect_counterexample :
    (handleError testConfig connState .Unavailable env0).1.connected = false ∧
    isConnected (handleError testConfig connState .Unavailable env0).1 = true ∧
    (healthTick testConfig (handleError testConfig connState .Unavailable env0).1
      env0).2 = false := by
  decide

/-- C8 (amended): a Transient error (Unavailable or DeadlineExceeded) below
the error threshold marks connected = false, but the liveness check is
unchanged by the error handling — it reads only the transport channel — and
the health loop's next tick invokes the reconnection attempt precisely when
the channel itself is not live. -/
theorem transient_marks_disconnected (cfg : ExternalMonitorConfig) (s : ProxyState)
    (env env2 : Env) (code : GrpcCode)
    (hcode : code = .Unavailable ∨ code = .DeadlineExceeded)
    (hth : s.errorCount + 1 < cfg.pluginConfig.healthCheck.errorThreshold) :
    (handleError cfg s code env).1.connected = false ∧
    isConnected (handleError cfg s code env).1 = isConnected s ∧
    (healthTick cfg (handleError cfg s code env).1 env2).2 = !(isConnected s) := by
  have key : (handleError cfg s code env).1 =
      { s with errorCount := s.errorCount + 1, connected := false } := by
    rcases hcode with rfl | rfl <;>
    · simp only [handleError]
      split
      next hge =>
        exact absurd
          (show cfg.pluginConfig.healthCheck.errorThreshold ≤ s.errorCount + 1 from hge)
          (not_le.mpr hth)
      next hlt => rfl
  rw [key]
  refine ⟨rfl, rfl, ?_⟩
  unfold healthTick
  have hiso : isConnected { s with errorCount := s.errorCount + 1, connected := false } =
      isConnected s := rfl
  cases hic : isConnected s with
  | true => rw [if_pos (by rw [hiso, hic])]; rfl
  | false => rw [if_neg (by rw [hiso, hic]; exact Bool.false_ne_true)]; rfl

/-- Witness for C8's amended theorem on a Ready channel below threshold. -/
theorem transient_marks_disconnected_witness :
    (GrpcCode.Unavailable = GrpcCode.Unavailable ∨
      GrpcCode.Unavailable = GrpcCode.DeadlineExceeded) ∧
    connState.errorCount + 1 < testConfig.pluginConfig.healthCheck.errorThreshold ∧
    ((handleError testConfig connState .Unavailable env0).1.connected = false ∧
     isConnected (handleError testConfig connState .Unavailable env0).1 =
       isConnected connState ∧
     (healthTick testConfig (handleError testConfig connState .Unavailable env0).1
       env0).2 = !(isConnected connState)) :=
  ⟨Or.inl rfl, by decide,
   transient_marks_disconnected testConfig connState env0 env0 .Unavailable
     (Or.inl rfl) (by decide)⟩

/-- C6 counterexample: stopping the freshly constructed proxy succeeds, and a
second Stop call panics by closing the already-closed status channel. -/
theorem stop_twice_counterexample :
    (∃ s1, Stop initialProxyState = Except.ok s1) ∧
    (Stop initialProxyState).bind Stop =
      Except.error "panic: close of closed channel" :=
  ⟨⟨_, rfl⟩, rfl⟩

/-- C6 (amended): one Stop call from any state whose status channel is still
open fully stops the proxy — stop signal set, connection handle cleared,
outbound channel closed, and no later poll tick can append to the outbound
channel — but Stop is safe to call exactly once, not idempotent: a second
call double-closes the status channel and panics. -/
theorem stop_once_not_idempotent (s : ProxyState) (h : s.chanClosed = false) :
    ∃ s', Stop s = .ok s' ∧ s'.conn = none ∧ s'.chanClosed = true ∧
      s'.stopping = true ∧
      (∀ cfg o env, (checkHealth cfg s' o env).1.statusChan = s'.statusChan) ∧
      Stop s' = .error "panic: close of closed channel" := by
  simp only [Stop]
  cases hc : s.conn with
  | none =>
    split
    next hcc => exact absurd (show s.chanClosed = true from hcc) (by simp [h])
    next hcc =>
      refine ⟨_, rfl, rfl, rfl, rfl, ?_, rfl⟩
      intro cfg o env
      exact checkHealth_stopping_chan cfg _ o env rfl
  | some st =>
    split
    next hcc => exact absurd (show s.chanClosed = true from hcc) (by simp [h])
    next hcc =>
      refine ⟨_, rfl, rfl, rfl, rfl, ?_, rfl⟩
      intro cfg o env
      exact checkHealth_stopping_chan cfg _ o env rfl

/-- Witness for C6's amended theorem at the freshly constructed proxy. -/
theorem stop_once_not_idempotent_witness :
    initialProxyState.chanClosed = false ∧
    (∃ s', Stop initialProxyState = .ok s' ∧ s'.conn = none ∧
      s'.chanClosed = true ∧ s'.stopping = true ∧
      (∀ cfg o env, (checkHealth cfg s' o env).1.statusChan = s'.statusChan) ∧
      Stop s' = .error "panic: close of closed channel") :=
  ⟨rfl, stop_once_not_idempotent initialProxyState rfl⟩

/-- C10: with an empty declared-conditions list, the pre-tick initialization
is the identity — no synthetic status is built or emitted and the last-sent
reference stays unset — so from a state with no last-sent reference the first
successful poll is emitted regardless of its contents. -/
theorem no_initial_status_when_no_conditions (cfg : ExternalMonitorConfig)
    (s : ProxyState) (now : Int) (pb : PbStatus) (env : Env)
    (hcond : cfg.conditions = []) :
    monitorLoopInit cfg now s = s ∧
    (s.lastStatus = none → s.stopping = false → isConnected s = true →
      s.statusChan.length < statusChanCapacity →
      (checkHealth cfg s (.success (some pb)) env).2.2 = .emitted ∧
      (checkHealth cfg s (.success (some pb)) env).1.statusChan =
        s.statusChan ++ [convertStatus pb]) := by
  constructor
  · unfold monitorLoopInit sendInitialStatus
    rw [hcond]
    simp
  · intro hlast hstop hc hroom
    have hsend : shouldSendStatus s (convertStatus pb) = true := by
      unfold shouldSendStatus
      rw [hlast]
    rw [checkHealth_success_emitted cfg s pb env hc hstop hsend hroom]
    exact ⟨rfl, rfl⟩

/-- Witness for C10 at the default configuration and a Ready channel. -/
theorem no_initial_status_witness :
    testConfig.conditions = [] ∧
    (monitorLoopInit testConfig 0 connState = connState ∧
     (connState.lastStatus = none → connState.stopping = false →
      isConnected connState = true →
      connState.statusChan.length < statusChanCapacity →
      (checkHealth testConfig connState (.success (some pbStatusC)) env0).2.2 =
        .emitted ∧
      (checkHealth testConfig connState (.success (some pbStatusC)) env0).1.statusChan =
        connState.statusChan ++ [convertStatus pbStatusC])) :=
  ⟨rfl, no_initial_status_when_no_conditions testConfig connState 0 pbStatusC env0 rfl⟩

theorem isConnected_congr (a b : ProxyState) (h : a.conn = b.conn) :
    isConnected a = isConnected b := by
  unfold isConnected
  rw [h]

theorem shouldSendStatus_some (s : ProxyState) (A st : Status)
    (h : s.lastStatus = some A) :
    (shouldSendStatus s st = true ↔
      (st.events ≠ [] ∨ conditionsEqual A.conditions st.conditions = false)) := by
  unfold shouldSendStatus
  rw [h]
  by_cases he : st.events.length > 0
  · simp only [he, if_pos]
    simp only [true_iff]
    exact Or.inl (List.ne_nil_of_length_pos he)
  · have hev : st.events = [] := List.length_eq_zero.mp (by omega)
    simp [he, hev]

theorem checkHealth_success_state (cfg : ExternalMonitorConfig) (s : ProxyState)
    (pb : PbStatus) (env : Env) (hc : isConnected s = true)
    (hstop : s.stopping = false) :
    (checkHealth cfg s (.success (some pb)) env).1.lastStatus =
      some (convertStatus pb) ∧
    (checkHealth cfg s (.success (some pb)) env).1.conn = s.conn ∧
    (checkHealth cfg s (.success (some pb)) env).1.stopping = s.stopping := by
  by_cases hsend : shouldSendStatus s (convertStatus pb) = true
  · by_cases hroom : s.statusChan.length < statusChanCapacity
    · rw [checkHealth_success_emitted cfg s pb env hc hstop hsend hroom]
      exact ⟨rfl, rfl, rfl⟩
    · rw [checkHealth_success_dropped cfg s pb env hc hstop hsend hroom]
      exact ⟨rfl, rfl, rfl⟩
  · rw [checkHealth_success_suppressed cfg s pb env hc
      (Bool.not_eq_true _ ▸ hsend : shouldSendStatus s (convertStatus pb) = false)]
    exact ⟨rfl, rfl, rfl⟩

/-- C2: for two consecutive successful polls converting to statuses A then B
(proxy connected, not stopping, outbound channel not full), the second poll
is emitted iff the prior reference is absent (impossible after the first
poll), or B carries at least one event, or the two conditions lists differ
under the source's ordered comparison; when B has no events and the lists
agree on (type, status, reason, message) — timestamps ignored — the poll is
suppressed and nothing is appended to the channel.  The source's comparison
coincides with the spec's ordered element-wise four-field equality. -/
theorem emission_law (cfg : ExternalMonitorConfig) (s0 : ProxyState)
    (pbA pbB : PbStatus) (envA envB : Env)
    (hstop : s0.stopping = false) (hc : isConnected s0 = true)
    (hroom : (checkHealth cfg s0 (.success (some pbA)) envA).1.statusChan.length <
      statusChanCapacity) :
    ((checkHealth cfg (checkHealth cfg s0 (.success (some pbA)) envA).1
        (.success (some pbB)) envB).2.2 = .emitted ↔
      ((checkHealth cfg s0 (.success (some pbA)) envA).1.lastStatus = none ∨
       (convertStatus pbB).events ≠ [] ∨
       conditionsEqual (convertStatus pbA).conditions (convertStatus pbB).conditions
         = false)) ∧
    ((convertStatus pbB).events = [] ∧
     conditionsEqual (convertStatus pbA).conditions (convertStatus pbB).conditions
       = true →
      (checkHealth cfg (checkHealth cfg s0 (.success (some pbA)) envA).1
          (.success (some pbB)) envB).2.2 = .suppressed ∧
      (checkHealth cfg (checkHealth cfg s0 (.success (some pbA)) envA).1
          (.success (some pbB)) envB).1.statusChan =
        (checkHealth cfg s0 (.success (some pbA)) envA).1.statusChan) ∧
    (∀ a b : List Condition, conditionsEqual a b = true ↔ conditionsEqSpec a b) := by
  obtain ⟨hl, hconn, hst⟩ := checkHealth_success_state cfg s0 pbA envA hc hstop
  have hstop1 : (checkHealth cfg s0 (.success (some pbA)) envA).1.stopping = false :=
    hst.trans hstop
  have hc1 : isConnected (checkHealth cfg s0 (.success (some pbA)) envA).1 = true :=
    (isConnected_congr _ _ hconn).trans hc
  have hsend_iff :=
    shouldSendStatus_some (checkHealth cfg s0 (.success (some pbA)) envA).1
      (convertStatus pbA) (convertStatus pbB) hl
  refine ⟨?_, ?_, conditionsEqual_iff_spec⟩
  · by_cases hsend : shouldSendStatus (checkHealth cfg s0 (.success (some pbA)) envA).1
        (convertStatus pbB) = true
    · rw [checkHealth_success_emitted cfg _ pbB envB hc1 hstop1 hsend hroom]
      constructor
      · intro _
        exact Or.inr (hsend_iff.mp hsend)
      · intro _
        rfl
    · rw [checkHealth_success_suppressed cfg _ pbB envB hc1
        (Bool.not_eq_true _ ▸ hsend : shouldSendStatus _ (convertStatus pbB) = false)]
      constructor
      · intro hcontra
        exact absurd hcontra (by simp)
      · intro hOr
        rcases hOr with hnone | hrest
        · rw [hl] at hnone
          cases hnone
        · exact absurd (hsend_iff.mpr hrest) hsend
  · intro ⟨hBev, hBeq⟩
    have hsend : shouldSendStatus (checkHealth cfg s0 (.success (some pbA)) envA).1
        (convertStatus pbB) = false := by
      rcases Bool.eq_false_or_eq_true (shouldSendStatus
          (checkHealth cfg s0 (.success (some pbA)) envA).1 (convertStatus pbB)) with
        ht | hf
      · rcases hsend_iff.mp ht with hev | hne
        · exact absurd hBev hev
        · rw [hBeq] at hne
          cases hne
      · exact hf
    rw [checkHealth_success_suppressed cfg _ pbB envB hc1 hsend]
    exact ⟨rfl, rfl⟩

/-- Witness for C2 on two concrete polls whose conditions differ. -/
theorem emission_law_witness :
    connState.stopping = false ∧ isConnected connState = true ∧
    (checkHealth testConfig connState (.success (some pbStatusC))
      env0).1.statusChan.length < statusChanCapacity ∧
    ((checkHealth testConfig
        (checkHealth testConfig connState (.success (some pbStatusC)) env0).1
        (.success (some pbStatusB)) env0).2.2 = .emitted ↔
      ((checkHealth testConfig connState (.success (some pbStatusC))
          env0).1.lastStatus = none ∨
       (convertStatus pbStatusB).events ≠ [] ∨
       conditionsEqual (convertStatus pbStatusC).conditions
         (convertStatus pbStatusB).conditions = false)) :=
  ⟨by decide, by decide, by decide,
   (emission_law testConfig connState pbStatusC pbStatusB env0 env0
     (by decide) (by decide) (by decide)).1⟩

theorem runPolls_map_sequence (cfg : ExternalMonitorConfig) :
    ∀ (inputs : List (PollOutcome × Env)) (s : ProxyState),
      ((runPolls cfg s inputs).2.map HealthCheckRequest.sequence) =
        ((List.range (runPolls cfg s inputs).2.length).map
          (fun (i : Nat) => s.sequenceNumber + 1 + (i : Int))) := by
  intro inputs
  induction inputs with
  | nil =>
    intro s
    simp [runPolls]
  | cons p rest ih =>
    obtain ⟨o, env⟩ := p
    intro s
    cases hcb : isConnected s with
    | false =>
      simp only [runPolls]
      rw [checkHealth_not_connected cfg s o env hcb]
      exact ih s
    | true =>
      obtain ⟨hreq, hseq⟩ := checkHealth_request cfg s o env hcb
      simp only [runPolls]
      rw [hreq]
      simp only [List.map_cons, List.length_cons]
      rw [ih (checkHealth cfg s o env).1, hseq]
      rw [List.range_succ_eq_map, List.map_cons, List.map_map]
      refine congrArg₂ List.cons (by norm_num) ?_
      have hfun : ((fun i : Nat => s.sequenceNumber + 1 + (i : Int)) ∘ Nat.succ) =
          (fun i : Nat => s.sequenceNumber + 1 + 1 + (i : Int)) := by
        funext i
        simp only [Function.comp]
        push_cast
        ring
      rw [hfun]

theorem map_sequence_get (l : List HealthCheckRequest) (g : Nat → Int)
    (h : l.map HealthCheckRequest.sequence = (List.range l.length).map g) :
    ∀ n (hn : n < l.length), (l.get ⟨n, hn⟩).sequence = g n := by
  intro n hn
  have h1 : (l.map HealthCheckRequest.sequence).get? n =
      some ((l.get ⟨n, hn⟩).sequence) := by
    rw [List.get?_map, List.get?_eq_get hn]
    rfl
  have h2 : ((List.range l.length).map g).get? n = some (g n) := by
    rw [List.get?_map, List.get?_range hn]
    rfl
  rw [h, h2] at h1
  exact (Option.some.inj h1).symm

/-- C3: starting from sequence counter 0, over any sequence of poll ticks the
request attached to the Nth CheckHealth call carries sequence number N
(1-indexed); consequently the attached numbers are strictly increasing and
never reset while the proxy runs. -/
theorem sequence_numbers (cfg : ExternalMonitorConfig) (s : ProxyState)
    (inputs : List (PollOutcome × Env)) (h0 : s.sequenceNumber = 0) :
    (∀ n (hn : n < (runPolls cfg s inputs).2.length),
      ((runPolls cfg s inputs).2.get ⟨n, hn⟩).sequence = n + 1) ∧
    (∀ m n (hm : m < (runPolls cfg s inputs).2.length)
        (hn : n < (runPolls cfg s inputs).2.length), m < n →
      ((runPolls cfg s inputs).2.get ⟨m, hm⟩).sequence <
        ((runPolls cfg s inputs).2.get ⟨n, hn⟩).sequence) := by
  have hmap := runPolls_map_sequence cfg inputs s
  rw [h0] at hmap
  have hget := map_sequence_get _ _ hmap
  have hval : ∀ n (hn : n < (runPolls cfg s inputs).2.length),
      ((runPolls cfg s inputs).2.get ⟨n, hn⟩).sequence = n + 1 := by
    intro n hn
    rw [hget n hn]
    push_cast
    ring
  refine ⟨hval, ?_⟩
  intro m n hm hn hmn
  rw [hval m hm, hval n hn]
  push_cast
  omega

/-- Witness for C3 on a two-tick trace from the initial counter. -/
theorem sequence_numbers_witness :
    connState.sequenceNumber = 0 ∧
    ((runPolls testConfig connState
        [(.success (some pbStatusC), env0), (.success (some pbStatusB), env0)]).2.get
      ⟨0, by decide⟩).sequence = 0 + 1 ∧
    ((runPolls testConfig connState
        [(.success (some pbStatusC), env0), (.success (some pbStatusB), env0)]).2.get
      ⟨1, by decide⟩).sequence = 1 + 1 :=
  ⟨rfl,
   (sequence_numbers testConfig connState
     [(.success (some pbStatusC), env0), (.success (some pbStatusB), env0)] rfl).1
     0 (by decide),
   (sequence_numbers testConfig connState
     [(.success (some pbStatusC), env0), (.success (some pbStatusB), env0)] rfl).1
     1 (by decide)⟩

theorem attemptReconnection_give_up (cfg : ExternalMonitorConfig) (s : ProxyState)
    (env : Env) (h : s.backoffAttempt ≥ cfg.pluginConfig.retryPolicy.maxAttempts) :
    ((attemptReconnection cfg s env).2 = .debounced ∨
     (attemptReconnection cfg s env).2 = .gaveUp) ∧
    (attemptReconnection cfg s env).1.backoffAttempt = s.backoffAttempt ∧
    (attemptReconnection cfg s env).1.conn = s.conn ∧
    (attemptReconnection cfg s env).1.connected = s.connected := by
  simp only [attemptReconnection]
  split
  · exact ⟨Or.inl rfl, rfl, rfl, rfl⟩
  · first
      | exact ⟨Or.inr rfl, rfl, rfl, rfl⟩
      | (split
         all_goals
           first
             | exact ⟨Or.inr rfl, rfl, rfl, rfl⟩
             | (rename_i hno
                exact absurd h hno))

theorem handleError_give_up (cfg : ExternalMonitorConfig) (s : ProxyState)
    (code : GrpcCode) (env : Env)
    (h : s.backoffAttempt ≥ cfg.pluginConfig.retryPolicy.maxAttempts) :
    (handleError cfg s code env).1.backoffAttempt = s.backoffAttempt ∧
    (handleError cfg s code env).1.conn = s.conn := by
  cases code
  all_goals simp only [handleError]
  all_goals split
  all_goals
    first
      | exact ⟨rfl, rfl⟩
      | exact ⟨(attemptReconnection_give_up cfg
            { s with errorCount := s.errorCount + 1, connected := false } env h).2.1,
          (attemptReconnection_give_up cfg
            { s with errorCount := s.errorCount + 1, connected := false } env h).2.2.1⟩
      | exact ⟨(attemptReconnection_give_up cfg
            { s with errorCount := s.errorCount + 1 } env h).2.1,
          (attemptReconnection_give_up cfg
            { s with errorCount := s.errorCount + 1 } env h).2.2.1⟩

theorem checkHealth_give_up (cfg : ExternalMonitorConfig) (s : ProxyState)
    (o : PollOutcome) (env : Env)
    (h : s.backoffAttempt ≥ cfg.pluginConfig.retryPolicy.maxAttempts) :
    (checkHealth cfg s o env).1.backoffAttempt = s.backoffAttempt ∧
    (checkHealth cfg s o env).1.conn = s.conn := by
  simp only [checkHealth]
  repeat' split
  all_goals
    first
      | exact ⟨rfl, rfl⟩
      | exact ⟨(handleError_give_up cfg
            { s with sequenceNumber := s.sequenceNumber + 1 } _ env h).1,
          (handleError_give_up cfg
            { s with sequenceNumber := s.sequenceNumber + 1 } _ env h).2⟩

theorem healthTick_give_up (cfg : ExternalMonitorConfig) (s : ProxyState) (env : Env)
    (h : s.backoffAttempt ≥ cfg.pluginConfig.retryPolicy.maxAttempts) :
    (healthTick cfg s env).1.backoffAttempt = s.backoffAttempt ∧
    (healthTick cfg s env).1.conn = s.conn := by
  unfold healthTick
  split
  · exact ⟨rfl, rfl⟩
  · exact ⟨(attemptReconnection_give_up cfg s env h).2.1,
      (attemptReconnection_give_up cfg s env h).2.2.1⟩

theorem runSteps_give_up (cfg : ExternalMonitorConfig) :
    ∀ (steps : List Step) (s : ProxyState),
      s.backoffAttempt ≥ cfg.pluginConfig.retryPolicy.maxAttempts →
      (runSteps cfg s steps).backoffAttempt = s.backoffAttempt ∧
      (runSteps cfg s steps).conn = s.conn := by
  intro steps
  induction steps with
  | nil => intro s _; exact ⟨rfl, rfl⟩
  | cons st rest ih =>
    intro s h
    have hstep : (runStep cfg s st).backoffAttempt = s.backoffAttempt ∧
        (runStep cfg s st).conn = s.conn := by
      cases st with
      | poll o env => exact checkHealth_give_up cfg s o env h
      | health env => exact healthTick_give_up cfg s env h
    have ih' := ih (runStep cfg s st) (by rw [hstep.1]; exact h)
    simp only [runSteps]
    exact ⟨ih'.1.trans hstep.1, ih'.2.trans hstep.2⟩

theorem attemptReconnection_backoff_mono (cfg : ExternalMonitorConfig)
    (t : ProxyState) (env : Env) :
    (∃ d, (attemptReconnection cfg t env).2 = .connectedOk d ∧
      (attemptReconnection cfg t env).1.backoffAttempt = 0) ∨
    (attemptReconnection cfg t env).1.backoffAttempt ≥ t.backoffAttempt := by
  simp only [attemptReconnection]
  repeat' split
  all_goals
    first
      | exact Or.inr le_rfl
      | (refine Or.inr ?_
         show t.backoffAttempt ≤ t.backoffAttempt + 1
         omega)
      | (rename_i s3 hs3
         refine Or.inl ⟨_, rfl, ?_⟩
         rw [connectUnsafe_ok_eq _ _ _ hs3])

/-- C9: once backoffAttempt has reached maxAttempts, every invocation of the
reconnection attempt procedure returns without dialing (debounced or gave up)
and leaves backoffAttempt and the connection unchanged; along any sequence of
poll and health ticks backoffAttempt and the transport channel stay as they
were, so no automatic reconnection ever occurs; and in general backoffAttempt
decreases only when the attempt ends in a successful connection. -/
theorem give_up_is_permanent (cfg : ExternalMonitorConfig) (s : ProxyState)
    (h : s.backoffAttempt ≥ cfg.pluginConfig.retryPolicy.maxAttempts) :
    (∀ env, ((attemptReconnection cfg s env).2 = .debounced ∨
        (attemptReconnection cfg s env).2 = .gaveUp) ∧
      (attemptReconnection cfg s env).1.backoffAttempt = s.backoffAttempt ∧
      (attemptReconnection cfg s env).1.conn = s.conn) ∧
    (∀ steps : List Step,
      (runSteps cfg s steps).backoffAttempt = s.backoffAttempt ∧
      (runSteps cfg s steps).conn = s.conn) ∧
    (∀ (t : ProxyState) (env : Env),
      (attemptReconnection cfg t env).1.backoffAttempt < t.backoffAttempt →
      ∃ d, (attemptReconnection cfg t env).2 = .connectedOk d) := by
  refine ⟨?_, ?_, ?_⟩
  · intro env
    have hgu := attemptReconnection_give_up cfg s env h
    exact ⟨hgu.1, hgu.2.1, hgu.2.2.1⟩
  · intro steps
    exact runSteps_give_up cfg steps s h
  · intro t env hlt
    rcases attemptReconnection_backoff_mono cfg t env with ⟨d, hd, _⟩ | hge
    · exact ⟨d, hd⟩
    · exact absurd hlt (not_lt.mpr hge)

/-- Witness for C9 at a state whose attempt counter equals maxAttempts. -/
theorem give_up_is_permanent_witness :
    ProxyState.backoffAttempt { connState with backoffAttempt := 5 } ≥
      testConfig.pluginConfig.retryPolicy.maxAttempts ∧
    (((attemptReconnection testConfig { connState with backoffAttempt := 5 }
        env0).2 = .debounced ∨
      (attemptReconnection testConfig { connState with backoffAttempt := 5 }
        env0).2 = .gaveUp) ∧
     (attemptReconnection testConfig { connState with backoffAttempt := 5 }
        env0).1.backoffAttempt =
       ProxyState.backoffAttempt { connState with backoffAttempt := 5 } ∧
     (attemptReconnection testConfig { connState with backoffAttempt := 5 }
        env0).1.conn =
       ProxyState.conn { connState with backoffAttempt := 5 }) :=
  ⟨by decide,
   (give_up_is_permanent testConfig { connState with backoffAttempt := 5 }
     (by decide)).1 env0⟩

end NpdExt
